import Mathlib

/-!
# Verification of the multi-agent research pipeline (`research_agent.py`)

Shallow embedding of `MultiAgentResearchSystem`. External collaborators
(the language-model provider reached through `client.chat.completions.create`,
the decorated search call site, the possibility that a decorated worker
invocation raises before running, and the evaluation service reached through
`eval_client.run_evaluation`) are modelled as oracles packaged in an
environment; the control flow (try/except blocks, fallbacks, parsing,
report construction) is translated from the source. The mutable
`research_database` list is threaded explicitly as state.
-/

namespace ResearchSystem

/-- Outcome of one call to the language-model provider, as the source code
distinguishes them: `ok s` is a response whose `choices[0].message.content`
is the string `s`; `noChoices` is a falsy response or one with an empty
`choices` list (the source's `else` branch); `raised e` is an exception
whose `str(e)` is `e`. -/
inductive LMResp where
  | ok (s : String)
  | noChoices
  | raised (e : String)
deriving DecidableEq

/-- The dict returned by `web_search` (and, abstractly, by any search
provider): `{"query": ..., "results": [...], "sources": [...]}`. -/
structure SearchResult where
  query : String
  results : List String
  sources : List String
deriving DecidableEq

/-- One research record dict, as built by `research_agent`. -/
structure AgentRecord where
  agent_id : Nat
  topic : String
  findings : String
  sources : List String
  search_query : String
deriving DecidableEq

/-- The final report dict returned by `lead_agent`. -/
structure FinalReport where
  research_question : String
  subtopics : List String
  individual_research : List AgentRecord
  final_synthesis : String
  total_agents_used : Nat
deriving DecidableEq

/-- Environment of external behaviors for one run. `plan` is the outcome of
the decomposition call on the research question; `search` is the outcome of
the decorated `web_search` call site on the query string (the concrete mock
never raises, but the call boundary is opaque to the orchestration logic);
`agentLLM` is the outcome of a worker's analysis call, keyed by the topic and
the search results it is prompted with; `workerFatal i` models the situation
anticipated by the `try/except` around `self.research_agent(subtopic, i+1)`
in the fan-out loop: when true, invocation `i` (0-based) raises before
producing any record or side effect and is skipped; `synth` is the outcome
of the synthesis call, keyed by the question and the joined findings. -/
structure Env where
  plan : String → LMResp
  search : String → Except String SearchResult
  agentLLM : String → List String → LMResp
  workerFatal : Nat → Bool
  synth : String → String → LMResp

/-- `web_search`: the mock search tool. Pure function of the query. -/
def web_search (query : String) : SearchResult :=
  { query := query,
    results := ["Research finding about " ++ query ++ " from source 1",
                "Additional information on " ++ query ++ " from source 2",
                "Expert analysis of " ++ query ++ " from source 3"],
    sources := ["source1.com", "source2.org", "source3.edu"] }

/-- `store_research`: appends the record to `research_database` and returns
`True`. -/
def store_research (db : List AgentRecord) (data : AgentRecord) :
    List AgentRecord × Bool :=
  (db ++ [data], true)

/-- `research_agent(topic, agent_id)`: searches, asks the language model for
an analysis, builds the record, stores it, and returns it; any exception from
the search or language-model call is caught and turned into a degraded record
(which is not stored). Returns the record together with the updated
`research_database`. -/
def research_agent (env : Env) (topic : String) (agent_id : Nat)
    (db : List AgentRecord) : AgentRecord × List AgentRecord :=
  match env.search (topic ++ " research analysis") with
  | Except.error e =>
      ({ agent_id := agent_id, topic := topic,
         findings := "Research failed: " ++ e,
         sources := [], search_query := topic }, db)
  | Except.ok search_results =>
      match env.agentLLM topic search_results.results with
      | LMResp.raised e =>
          ({ agent_id := agent_id, topic := topic,
             findings := "Research failed: " ++ e,
             sources := [], search_query := topic }, db)
      | LMResp.ok t =>
          let research_data : AgentRecord :=
            { agent_id := agent_id, topic := topic, findings := t,
              sources := search_results.sources,
              search_query := search_results.query }
          (research_data, (store_research db research_data).1)
      | LMResp.noChoices =>
          let research_data : AgentRecord :=
            { agent_id := agent_id, topic := topic,
              findings := "Analysis of " ++ topic ++
                " based on available research data.",
              sources := search_results.sources,
              search_query := search_results.query }
          (research_data, (store_research db research_data).1)

/-- Python `str.strip()` on the whitespace handled by `String.trim`. -/
def pyStrip (s : String) : String := s.trim

/-- The decomposition parsing of lines 112–115 of the source:
`[t.strip() for t in text.split(chr 10) if t.strip() and not
t.strip().startswith(chr 35)][:3]`. -/
def parseSubtopics (text : String) : List String :=
  (((text.splitOn "\n").filter
      (fun t => !(pyStrip t).isEmpty && !((pyStrip t).startsWith "#"))).map
    pyStrip).take 3

/-- The parsing described by the spec sentence for claim C5: split into
lines, drop lines empty after stripping, drop lines whose stripped form
begins with a heading marker, strip the rest, keep the first 3. -/
def specParseSubtopics (text : String) : List String :=
  ((((text.splitOn "\n").filter (fun t => !(pyStrip t).isEmpty)).filter
      (fun t => !((pyStrip t).startsWith "#"))).map pyStrip).take 3

/-- The fixed fallback triplet of line 121. -/
def defaultSubtopics : List String :=
  ["Technical challenges", "Economic factors", "Policy considerations"]

/-- Lines 103–117: the decomposition call and parsing. An exception from the
call propagates (to the top-level handler of `lead_agent`); otherwise the
parsed list (empty when the response was falsy or had no choices). -/
def planSubtopics (env : Env) (research_question : String) :
    Except String (List String) :=
  match env.plan research_question with
  | LMResp.raised e => Except.error e
  | LMResp.noChoices => Except.ok []
  | LMResp.ok s => Except.ok (parseSubtopics s)

/-- The minimal report built by the top-level `except` of `lead_agent`
(lines 166–175). -/
def minimalErrorReport (research_question : String) (e : String) :
    FinalReport :=
  { research_question := research_question,
    subtopics := ["Error occurred"],
    individual_research := [],
    final_synthesis := "Research failed due to error: " ++ e,
    total_agents_used := 0 }

/-- The fan-out loop of lines 126–134: for each subtopic, in order, invoke
`research_agent` with `agent_id = i + 1`; if the invocation itself raises
(`env.workerFatal i`), skip it and continue. Returns the collected records
and the updated `research_database`. -/
def fanOutAux (env : Env) : Nat → List String → List AgentRecord →
    List AgentRecord × List AgentRecord
  | _, [], db => ([], db)
  | i, subtopic :: rest, db =>
      if env.workerFatal i then
        fanOutAux env (i + 1) rest db
      else
        let p := research_agent env subtopic (i + 1) db
        let q := fanOutAux env (i + 1) rest p.2
        (p.1 :: q.1, q.2)

/-- Lines 136–164: build the final report from the collected records. If no
records were collected the synthesis is a fixed failure string and no
synthesis call is made; otherwise one synthesis call is made on the question
and the newline-joined findings, with a templated fallback when it returns
no usable text and the top-level handler's minimal report when it raises. -/
def synthesizeReport (env : Env) (research_question : String)
    (subtopics : List String) (results : List AgentRecord) : FinalReport :=
  if results.isEmpty then
    { research_question := research_question, subtopics := subtopics,
      individual_research := results,
      final_synthesis :=
        "Research could not be completed due to technical issues.",
      total_agents_used := results.length }
  else
    match env.synth research_question
        (String.intercalate "\n" (results.map (fun r => r.findings))) with
    | LMResp.raised e => minimalErrorReport research_question e
    | LMResp.noChoices =>
        { research_question := research_question, subtopics := subtopics,
          individual_research := results,
          final_synthesis :=
            "Synthesis of research on: " ++ research_question ++
              "\n\nBased on findings from " ++ toString results.length ++
              " research agents.",
          total_agents_used := results.length }
    | LMResp.ok s =>
        { research_question := research_question, subtopics := subtopics,
          individual_research := results, final_synthesis := s,
          total_agents_used := results.length }

/-- Lines 123–164 of `lead_agent`, after the subtopic list (fallback already
applied) is fixed: fan out, then synthesize. -/
def lead_agent_body (env : Env) (research_question : String)
    (subtopics : List String) (db : List AgentRecord) :
    FinalReport × List AgentRecord :=
  (synthesizeReport env research_question subtopics
      (fanOutAux env 0 subtopics db).1,
   (fanOutAux env 0 subtopics db).2)

/-- `lead_agent(research_question)`: decompose (falling back to the default
triplet when parsing yields nothing), fan out, synthesize; any exception
escaping those steps is converted into the minimal report. Total by
construction: it never propagates an exception. -/
def lead_agent (env : Env) (research_question : String)
    (db : List AgentRecord) : FinalReport × List AgentRecord :=
  match planSubtopics env research_question with
  | Except.error e => (minimalErrorReport research_question e, db)
  | Except.ok parsed =>
      lead_agent_body env research_question
        (if parsed.isEmpty then defaultSubtopics else parsed) db

/-- The string `needle` occurs as a contiguous substring of `hay`. -/
def strContains (needle hay : String) : Prop :=
  ∃ pre suf, hay = pre ++ needle ++ suf

/-- A scorer handed to the evaluation service (`FaithfulnessScorer`,
`AnswerRelevancyScorer` with their thresholds). -/
structure Scorer where
  sname : String
  threshold : Rat
deriving DecidableEq

/-- The two fixed scorers of lines 189–192 (thresholds 0.7 and 0.6). -/
def evalScorers : List Scorer :=
  [{ sname := "Faithfulness", threshold := 7 / 10 },
   { sname := "Answer Relevancy", threshold := 6 / 10 }]

/-- The `Example` built for the evaluation service. -/
structure EvalExample where
  input : String
  actual_output : String
  retrieval_context : List String
deriving DecidableEq

/-- One scorer's data in the evaluation service's response. -/
structure ScorerData where
  sdname : String
  score : Rat
deriving DecidableEq

/-- One element of the list returned by `run_evaluation`. -/
structure EvalResultItem where
  success : Bool
  scorers_data : List ScorerData
deriving DecidableEq

/-- The evaluation service as an oracle: `run_evaluation` may return a list
of result items or raise. -/
structure EvalEnv where
  run_evaluation : EvalExample → List Scorer → Except String (List EvalResultItem)

/-- The dict returned by `evaluate_research_quality`: either the summary
`{"evaluation_success": ..., "scores": ..., "evaluation_details": ...}` or
the error dict `{"evaluation_success": False, "error": ...}`. -/
inductive EvalSummary where
  | ok (evaluation_success : Bool) (scores : List (String × Rat))
      (details : List ScorerData)
  | failed (error : String)
deriving DecidableEq

/-- Lines 182–186: the evaluation example built from the report. -/
def buildExample (report : FinalReport) : EvalExample :=
  { input := report.research_question,
    actual_output := report.final_synthesis,
    retrieval_context := report.individual_research.map (fun r => r.findings) }

/-- `evaluate_research_quality(report)`: build the example, call the
evaluation service, and summarize `results[0]`; any exception inside the
`try` (a raising service, or the `results[0]` IndexError on an empty result
list) is caught and returned as the error dict. -/
def evaluate_research_quality (eenv : EvalEnv) (report : FinalReport) :
    EvalSummary :=
  match eenv.run_evaluation (buildExample report) evalScorers with
  | Except.error e => EvalSummary.failed e
  | Except.ok [] => EvalSummary.failed "list index out of range"
  | Except.ok (r :: _) =>
      EvalSummary.ok r.success
        (r.scorers_data.map (fun sd => (sd.sdname, sd.score))) r.scorers_data

/-- A search oracle that behaves exactly as the concrete mock tool. -/
def wSearchOk : String → Except String SearchResult :=
  fun q => Except.ok (web_search q)

/-- Environment in which every provider call succeeds. -/
def wEnvBase : Env :=
  { plan := fun _ => LMResp.ok "A\nB\nC",
    search := wSearchOk,
    agentLLM := fun _ _ => LMResp.ok "ANALYSIS",
    workerFatal := fun _ => false,
    synth := fun _ _ => LMResp.ok "SYNTH" }

/-- Environment whose decomposition call raises. -/
def wEnvPlanRaise : Env := { wEnvBase with plan := fun _ => LMResp.raised "boom" }

/-- Environment whose decomposition call returns nothing usable. -/
def wEnvNoPlan : Env := { wEnvBase with plan := fun _ => LMResp.noChoices }

/-- Environment whose search provider raises. -/
def wEnvSearchRaise : Env :=
  { wEnvBase with search := fun _ => Except.error "network down" }

/-- Environment whose worker language-model call raises. -/
def wEnvLLMRaise : Env :=
  { wEnvBase with agentLLM := fun _ _ => LMResp.raised "boom" }

/-- Environment where decomposition is unusable and every worker invocation
raises fatally (is skipped). -/
def wEnvAllFatal : Env :=
  { wEnvBase with plan := fun _ => LMResp.noChoices,
                  workerFatal := fun _ => true }

/-- Environment where decomposition is unusable and only the first worker
invocation raises fatally. -/
def wEnvSkip : Env :=
  { wEnvBase with plan := fun _ => LMResp.noChoices,
                  workerFatal := fun i => i == 0 }

/-- The record produced by the second dispatch position under `wEnvSkip`. -/
def wRecord2 : AgentRecord :=
  { agent_id := 2, topic := "Economic factors", findings := "ANALYSIS",
    sources := ["source1.com", "source2.org", "source3.edu"],
    search_query := "Economic factors research analysis" }

/-- A concrete report to feed the evaluator. -/
def wReport : FinalReport := minimalErrorReport "q" "x"

/-- An evaluation service that raises. -/
def wEvalEnvFail : EvalEnv :=
  { run_evaluation := fun _ _ => Except.error "service down" }

/-! ## Helper lemmas -/

/-- `research_agent` always returns a record carrying the `agent_id` and
`topic` it was invoked with, on the success path as well as on the
degraded path. -/
theorem research_agent_id_topic (env : Env) (topic : String) (aid : Nat)
    (db : List AgentRecord) :
    (research_agent env topic aid db).1.agent_id = aid ∧
    (research_agent env topic aid db).1.topic = topic := by
  rcases hs : env.search (topic ++ " research analysis") with e | sr
  · simp [research_agent, hs]
  · rcases hl : env.agentLLM topic sr.results with t | _ | e <;>
      simp [research_agent, hs, hl]

/-- The fan-out loop collects at most one record per subtopic. -/
theorem fanOutAux_length_le (env : Env) (ts : List String) :
    ∀ (i : Nat) (db : List AgentRecord),
      (fanOutAux env i ts db).1.length ≤ ts.length := by
  induction ts with
  | nil => intro i db; simp [fanOutAux]
  | cons t rest ih =>
      intro i db
      by_cases hf : env.workerFatal i
      · simp only [fanOutAux, hf, if_true, List.length_cons]
        exact Nat.le_trans (ih (i + 1) db) (Nat.le_succ _)
      · simp only [fanOutAux, hf, if_false, List.length_cons]
        exact Nat.succ_le_succ (ih (i + 1) _)

/-- Every record collected by the fan-out loop started at index `i` carries
the `agent_id` `i + j + 1` of its subtopic's dispatch position `j`. -/
theorem fanOutAux_mem (env : Env) (ts : List String) :
    ∀ (i : Nat) (db : List AgentRecord) (r : AgentRecord),
      r ∈ (fanOutAux env i ts db).1 →
      ∃ j, ∃ hj : j < ts.length,
        r.agent_id = i + j + 1 ∧ ts.get ⟨j, hj⟩ = r.topic := by
  induction ts with
  | nil => intro i db r hr; simp [fanOutAux] at hr
  | cons t rest ih =>
      intro i db r hr
      by_cases hf : env.workerFatal i
      · simp only [fanOutAux, hf, if_true] at hr
        obtain ⟨j, hj, h1, h2⟩ := ih (i + 1) db r hr
        exact ⟨j + 1, Nat.succ_lt_succ hj, by omega, h2⟩
      · simp [fanOutAux, hf] at hr
        rcases hr with hr1 | hr1
        · subst hr1
          obtain ⟨ha, ht⟩ := research_agent_id_topic env t (i + 1) db
          exact ⟨0, Nat.succ_pos _, by omega, ht.symm⟩
        · obtain ⟨j, hj, h1, h2⟩ := ih (i + 1) _ r hr1
          exact ⟨j + 1, Nat.succ_lt_succ hj, by omega, h2⟩

/-- A successfully parsed decomposition never has more than 3 subtopics. -/
theorem planSubtopics_ok_length (env : Env) (q : String)
    (parsed : List String) (h : planSubtopics env q = Except.ok parsed) :
    parsed.length ≤ 3 := by
  unfold planSubtopics at h
  rcases hp : env.plan q with s | _ | e <;> rw [hp] at h
  · replace h := Except.ok.inj h
    subst h
    unfold parseSubtopics
    exact List.length_take_le _ _
  · replace h := Except.ok.inj h
    subst h
    simp
  · cases h

/-- The report built by `synthesizeReport` satisfies the size invariants
whenever the collected records do not outnumber the subtopics and the
subtopic list has at most 3 entries. -/
theorem synthesizeReport_shape (env : Env) (q : String) (st : List String)
    (results : List AgentRecord) (hle : results.length ≤ st.length)
    (h3 : st.length ≤ 3) :
    (synthesizeReport env q st results).individual_research.length =
      (synthesizeReport env q st results).total_agents_used ∧
    (synthesizeReport env q st results).total_agents_used ≤
      (synthesizeReport env q st results).subtopics.length ∧
    (synthesizeReport env q st results).subtopics.length ≤ 3 := by
  unfold synthesizeReport
  cases results with
  | nil => exact ⟨rfl, Nat.zero_le _, h3⟩
  | cons a as =>
      rw [if_neg (by simp)]
      rcases hsy : env.synth q
          (String.intercalate "\n" ((a :: as).map (fun r => r.findings))) with
        s | _ | e <;> rw [hsy]
      · exact ⟨rfl, hle, h3⟩
      · exact ⟨rfl, hle, h3⟩
      · exact ⟨rfl, Nat.zero_le _, by simp [minimalErrorReport]⟩

/-! ## Claim theorems -/

/-- C10: for every query string, `web_search` is total and deterministic:
its `query` field equals the input, its `results` field is exactly three
strings each containing the query, and its `sources` field is exactly
`["source1.com", "source2.org", "source3.edu"]`. It is a pure function of
the query alone, so no external service is consulted. -/
theorem c10_web_search_mock (q : String) :
    (web_search q).query = q ∧
    (web_search q).results.length = 3 ∧
    (∀ r ∈ (web_search q).results, strContains q r) ∧
    (web_search q).sources = ["source1.com", "source2.org", "source3.edu"] := by
  refine ⟨rfl, rfl, ?_, rfl⟩
  intro r hr
  simp only [web_search, List.mem_cons, List.not_mem_nil, or_false] at hr
  rcases hr with h | h | h <;> subst h
  · exact ⟨"Research finding about ", " from source 1", rfl⟩
  · exact ⟨"Additional information on ", " from source 2", rfl⟩
  · exact ⟨"Expert analysis of ", " from source 3", rfl⟩

/-- C10 witness: instantiated at the query `"wind"` and the first mock
result. -/
theorem c10_web_search_mock_witness :
    ("Research finding about wind from source 1" ∈
        (web_search "wind").results) ∧
    strContains "wind" "Research finding about wind from source 1" :=
  ⟨by decide,
   (c10_web_search_mock "wind").2.2.1
     "Research finding about wind from source 1" (by decide)⟩

/-- C5: the subtopic list `lead_agent` derives from a decomposition
response (via `parseSubtopics`) equals the spec's description: split into
lines, drop lines empty after stripping, drop lines whose stripped form
begins with a heading marker, strip the rest, keep the first 3. -/
theorem c5_parse_matches_spec (text : String) :
    parseSubtopics text = specParseSubtopics text := by
  unfold parseSubtopics specParseSubtopics
  rw [List.filter_filter]
  have hpred :
      (fun t => !(pyStrip t).isEmpty && !((pyStrip t).startsWith "#")) =
        (fun t => (!((pyStrip t).startsWith "#")) && !(pyStrip t).isEmpty) := by
    funext t
    exact Bool.and_comm _ _
  rw [hpred]

/-- C3: whenever the worker's search call or language-model call raises,
`research_agent` returns (rather than propagates) a degraded record with
the same `agent_id` and `topic`, `findings` equal to
`"Research failed: "` plus the error text, empty `sources`, and
`search_query` equal to the topic. The function is total, so it never
raises. -/
theorem c3_degraded_record (env : Env) (topic : String) (aid : Nat)
    (db : List AgentRecord) (e : String)
    (h : env.search (topic ++ " research analysis") = Except.error e ∨
         ∃ sr, env.search (topic ++ " research analysis") = Except.ok sr ∧
               env.agentLLM topic sr.results = LMResp.raised e) :
    (research_agent env topic aid db).1 =
      { agent_id := aid, topic := topic,
        findings := "Research failed: " ++ e,
        sources := [], search_query := topic } := by
  rcases h with h | ⟨sr, hs, hl⟩
  · simp [research_agent, h]
  · simp [research_agent, hs, hl]

/-- C3 witness: instantiated at a search provider that raises
`"network down"`. -/
theorem c3_degraded_record_witness :
    wEnvSearchRaise.search ("solar" ++ " research analysis") =
      Except.error "network down" ∧
    (research_agent wEnvSearchRaise "solar" 7 []).1 =
      { agent_id := 7, topic := "solar",
        findings := "Research failed: " ++ "network down",
        sources := [], search_query := "solar" } :=
  ⟨rfl, c3_degraded_record wEnvSearchRaise "solar" 7 [] "network down"
    (Or.inl rfl)⟩

/-- C9 counterexample: the claim says every record created by a worker
invocation — degraded ones included — is appended to the findings store.
Under a language-model provider that raises, the invocation creates a
degraded record yet leaves `research_database` unchanged. -/
theorem c9_counterexample_degraded_not_stored :
    (research_agent wEnvLLMRaise "solar" 1 []).1 =
      { agent_id := 1, topic := "solar",
        findings := "Research failed: boom",
        sources := [], search_query := "solar" } ∧
    ¬ (research_agent wEnvLLMRaise "solar" 1 []).2 =
        [] ++ [(research_agent wEnvLLMRaise "solar" 1 []).1] := by
  decide

/-- C9 (amended): a record built on the worker's success path (search
returned, language model did not raise) is appended to the findings store,
growing it by exactly one entry; a degraded record from the failure path is
returned but not stored. -/
theorem c9_success_records_stored (env : Env) (topic : String) (aid : Nat)
    (db : List AgentRecord) :
    ((∃ sr, env.search (topic ++ " research analysis") = Except.ok sr ∧
        ∀ e, env.agentLLM topic sr.results ≠ LMResp.raised e) →
      (research_agent env topic aid db).2 =
        db ++ [(research_agent env topic aid db).1]) ∧
    (∀ e, (env.search (topic ++ " research analysis") = Except.error e ∨
        ∃ sr, env.search (topic ++ " research analysis") = Except.ok sr ∧
          env.agentLLM topic sr.results = LMResp.raised e) →
      (research_agent env topic aid db).2 = db) := by
  constructor
  · rintro ⟨sr, hs, hl⟩
    rcases hll : env.agentLLM topic sr.results with t | _ | e
    · simp [research_agent, hs, hll, store_research]
    · simp [research_agent, hs, hll, store_research]
    · exact absurd hll (hl e)
  · rintro e (h | ⟨sr, hs, hl⟩)
    · simp [research_agent, h]
    · simp [research_agent, hs, hl]

/-- C9 (amended) witness: under the all-success environment, the record is
appended to the empty store. -/
theorem c9_success_records_stored_witness :
    (∃ sr, wEnvBase.search ("solar" ++ " research analysis") =
        Except.ok sr ∧
      ∀ e, wEnvBase.agentLLM "solar" sr.results ≠ LMResp.raised e) ∧
    (research_agent wEnvBase "solar" 1 []).2 =
      [] ++ [(research_agent wEnvBase "solar" 1 []).1] := by
  have hyp : ∃ sr, wEnvBase.search ("solar" ++ " research analysis") =
      Except.ok sr ∧
      ∀ e, wEnvBase.agentLLM "solar" sr.results ≠ LMResp.raised e :=
    ⟨web_search ("solar" ++ " research analysis"), rfl,
     fun e h => by cases h⟩
  exact ⟨hyp, (c9_success_records_stored wEnvBase "solar" 1 []).1 hyp⟩

/-- C7: `evaluate_research_quality` never propagates an exception from the
evaluation service. If the service call raises, the result is the error
dict carrying the error text; the `results[0]` lookup on an empty result
list likewise lands in the error dict; on a non-empty result list the
result is the summary dict with the success flag, the name-to-score
mapping, and the per-metric details of the first result. -/
theorem c7_evaluation_never_propagates (eenv : EvalEnv)
    (report : FinalReport) :
    (∀ e, eenv.run_evaluation (buildExample report) evalScorers =
        Except.error e →
      evaluate_research_quality eenv report = EvalSummary.failed e) ∧
    (eenv.run_evaluation (buildExample report) evalScorers =
        Except.ok [] →
      evaluate_research_quality eenv report =
        EvalSummary.failed "list index out of range") ∧
    (∀ r rest, eenv.run_evaluation (buildExample report) evalScorers =
        Except.ok (r :: rest) →
      evaluate_research_quality eenv report =
        EvalSummary.ok r.success
          (r.scorers_data.map (fun sd => (sd.sdname, sd.score)))
          r.scorers_data) := by
  refine ⟨?_, ?_, ?_⟩
  · intro e h
    simp [evaluate_research_quality, h]
  · intro h
    simp [evaluate_research_quality, h]
  · intro r rest h
    simp [evaluate_research_quality, h]

/-- C7 witness: instantiated at a raising evaluation service and a concrete
report. -/
theorem c7_evaluation_never_propagates_witness :
    wEvalEnvFail.run_evaluation (buildExample wReport) evalScorers =
      Except.error "service down" ∧
    evaluate_research_quality wEvalEnvFail wReport =
      EvalSummary.failed "service down" :=
  ⟨rfl, (c7_evaluation_never_propagates wEvalEnvFail wReport).1
    "service down" rfl⟩

/-- C1: for every research question and every behavior of the search and
language-model providers (returning text, returning nothing usable, or
raising) and of the worker invocations, `lead_agent` returns a report with
`individual_research.length = total_agents_used` and
`total_agents_used ≤ subtopics.length ≤ 3`. -/
theorem c1_report_shape (env : Env) (q : String) (db : List AgentRecord) :
    (lead_agent env q db).1.individual_research.length =
      (lead_agent env q db).1.total_agents_used ∧
    (lead_agent env q db).1.total_agents_used ≤
      (lead_agent env q db).1.subtopics.length ∧
    (lead_agent env q db).1.subtopics.length ≤ 3 := by
  unfold lead_agent
  rcases hp : planSubtopics env q with e | parsed
  · exact ⟨rfl, Nat.zero_le _, by simp [minimalErrorReport]⟩
  · have hlen := planSubtopics_ok_length env q parsed hp
    have h3 : (if parsed.isEmpty then defaultSubtopics else parsed).length ≤ 3 := by
      by_cases hpe : parsed.isEmpty
      · simp [hpe, defaultSubtopics]
      · simpa [hpe] using hlen
    exact synthesizeReport_shape env q _ _
      (fanOutAux_length_le env _ 0 db) h3

/-- C2: `lead_agent` is total (never propagates an exception), and when an
exception escapes the decomposition or synthesis call it returns exactly
the minimal report: `subtopics = ["Error occurred"]`, empty research,
`final_synthesis` carrying the error text, `total_agents_used = 0`.
Exceptions in the fan-out step are caught per worker and cannot escape. -/
theorem c2_minimal_report_on_exception (env : Env) (q : String)
    (db : List AgentRecord) :
    (∀ e, env.plan q = LMResp.raised e →
      (lead_agent env q db).1 = minimalErrorReport q e) ∧
    (∀ parsed results e,
      planSubtopics env q = Except.ok parsed →
      (fanOutAux env 0
          (if parsed.isEmpty then defaultSubtopics else parsed) db).1 =
        results →
      results ≠ [] →
      env.synth q
          (String.intercalate "\n" (results.map (fun r => r.findings))) =
        LMResp.raised e →
      (lead_agent env q db).1 = minimalErrorReport q e) := by
  constructor
  · intro e h
    have hps : planSubtopics env q = Except.error e := by
      simp [planSubtopics, h]
    unfold lead_agent
    rw [hps]
  · intro parsed results e hp hres hne hsy
    have hlead : lead_agent env q db =
        lead_agent_body env q
          (if parsed.isEmpty then defaultSubtopics else parsed) db := by
      unfold lead_agent
      rw [hp]
    rw [hlead]
    unfold lead_agent_body synthesizeReport
    rw [hres]
    rcases results with _ | ⟨a, as⟩
    · exact absurd rfl hne
    · rw [if_neg (by simp), hsy]

/-- C2 witness: instantiated at a decomposition call that raises `"boom"`. -/
theorem c2_minimal_report_on_exception_witness :
    wEnvPlanRaise.plan "q" = LMResp.raised "boom" ∧
    (lead_agent wEnvPlanRaise "q" []).1 = minimalErrorReport "q" "boom" :=
  ⟨rfl, (c2_minimal_report_on_exception wEnvPlanRaise "q" []).1 "boom" rfl⟩

/-- C4: when the decomposition response is absent, has no choices, or
parses to zero subtopics (`planSubtopics` returns an empty list), the run
proceeds exactly as if the subtopic list were the fixed default triplet,
and — as long as the later synthesis call does not raise — the returned
report's `subtopics` equals that triplet. -/
theorem c4_default_triplet (env : Env) (q : String) (db : List AgentRecord)
    (h : planSubtopics env q = Except.ok []) :
    lead_agent env q db = lead_agent_body env q defaultSubtopics db ∧
    ((∀ e, env.synth q (String.intercalate "\n"
        (((fanOutAux env 0 defaultSubtopics db).1).map
          (fun r => r.findings))) ≠ LMResp.raised e) →
      (lead_agent env q db).1.subtopics = defaultSubtopics) := by
  have h1 : lead_agent env q db = lead_agent_body env q defaultSubtopics db := by
    unfold lead_agent
    rw [h]
    rfl
  refine ⟨h1, ?_⟩
  intro hs
  rw [h1]
  unfold lead_agent_body synthesizeReport
  rcases hres : (fanOutAux env 0 defaultSubtopics db).1 with _ | ⟨a, as⟩
  · rfl
  · rw [if_neg (by simp)]
    rcases hsy : env.synth q (String.intercalate "\n"
        ((a :: as).map (fun r => r.findings))) with s | _ | e
    · rw [hsy]
    · rw [hsy]
    · refine absurd hsy ?_
      rw [← hres]
      exact hs e

/-- C4 witness: instantiated at a decomposition call returning no
choices. -/
theorem c4_default_triplet_witness :
    planSubtopics wEnvNoPlan "q" = Except.ok [] ∧
    lead_agent wEnvNoPlan "q" [] =
      lead_agent_body wEnvNoPlan "q" defaultSubtopics [] ∧
    (lead_agent wEnvNoPlan "q" []).1.subtopics = defaultSubtopics := by
  have h := c4_default_triplet wEnvNoPlan "q" [] rfl
  exact ⟨rfl, h.1, h.2 (fun e he => by cases he)⟩

/-- C6: in the synthesis step, when at least one record was collected and
the synthesis call returns no usable text, `final_synthesis` is the
templated string naming the question and the number of contributing
agents; when zero records were collected, `final_synthesis` is the fixed
failure string and `total_agents_used = 0` (no synthesis call is made). -/
theorem c6_synthesis_fallback (env : Env) (q : String)
    (db : List AgentRecord) (parsed : List String)
    (h : planSubtopics env q = Except.ok parsed) :
    ((fanOutAux env 0
        (if parsed.isEmpty then defaultSubtopics else parsed) db).1 = [] →
      (lead_agent env q db).1.final_synthesis =
        "Research could not be completed due to technical issues." ∧
      (lead_agent env q db).1.total_agents_used = 0) ∧
    (∀ results,
      (fanOutAux env 0
          (if parsed.isEmpty then defaultSubtopics else parsed) db).1 =
        results →
      results ≠ [] →
      env.synth q
          (String.intercalate "\n" (results.map (fun r => r.findings))) =
        LMResp.noChoices →
      (lead_agent env q db).1.final_synthesis =
        "Synthesis of research on: " ++ q ++
          "\n\nBased on findings from " ++ toString results.length ++
          " research agents.") := by
  have hlead : lead_agent env q db =
      lead_agent_body env q
        (if parsed.isEmpty then defaultSubtopics else parsed) db := by
    unfold lead_agent
    rw [h]
  constructor
  · intro hres
    rw [hlead]
    unfold lead_agent_body synthesizeReport
    rw [hres]
    exact ⟨rfl, rfl⟩
  · intro results hres hne hsy
    rw [hlead]
    unfold lead_agent_body synthesizeReport
    rw [hres]
    rcases results with _ | ⟨a, as⟩
    · exact absurd rfl hne
    · rw [if_neg (by simp), hsy]

/-- C6 witness: instantiated at a run in which decomposition yields nothing
and every worker invocation raises fatally, so zero records are
collected. -/
theorem c6_synthesis_fallback_witness :
    planSubtopics wEnvAllFatal "q" = Except.ok [] ∧
    (lead_agent wEnvAllFatal "q" []).1.final_synthesis =
      "Research could not be completed due to technical issues." ∧
    (lead_agent wEnvAllFatal "q" []).1.total_agents_used = 0 :=
  ⟨rfl, (c6_synthesis_fallback wEnvAllFatal "q" [] [] rfl).1 rfl⟩

/-- C8: every record in the returned `individual_research` carries the
`agent_id` equal to the 1-based position of its topic in the report's
subtopic list at dispatch time; skipped worker invocations leave gaps and
later records are never renumbered. -/
theorem c8_agent_ids_positional (env : Env) (q : String)
    (db : List AgentRecord) :
    ∀ r ∈ (lead_agent env q db).1.individual_research,
      ∃ j, ∃ hj : j < (lead_agent env q db).1.subtopics.length,
        r.agent_id = j + 1 ∧
        (lead_agent env q db).1.subtopics.get ⟨j, hj⟩ = r.topic := by
  intro r hr
  rcases hp : planSubtopics env q with e | parsed
  · have hlead : lead_agent env q db = (minimalErrorReport q e, db) := by
      unfold lead_agent
      rw [hp]
    rw [hlead] at hr
    simp [minimalErrorReport] at hr
  · have hlead : lead_agent env q db =
        lead_agent_body env q
          (if parsed.isEmpty then defaultSubtopics else parsed) db := by
      unfold lead_agent
      rw [hp]
    rw [hlead] at hr ⊢
    unfold lead_agent_body synthesizeReport at hr ⊢
    rcases hres : (fanOutAux env 0
        (if parsed.isEmpty then defaultSubtopics else parsed) db).1 with
      _ | ⟨a, as⟩
    · rw [hres] at hr
      simp at hr
    · rw [hres] at hr
      rw [if_neg (by simp)] at hr ⊢
      rcases hsy : env.synth q (String.intercalate "\n"
          ((a :: as).map (fun r => r.findings))) with s | _ | e2 <;>
        rw [hsy] at hr ⊢
      · obtain ⟨j, hj, h1, h2⟩ :=
          fanOutAux_mem env _ 0 db r (by rw [hres]; exact hr)
        exact ⟨j, hj, by omega, h2⟩
      · obtain ⟨j, hj, h1, h2⟩ :=
          fanOutAux_mem env _ 0 db r (by rw [hres]; exact hr)
        exact ⟨j, hj, by omega, h2⟩
      · simp [minimalErrorReport] at hr

/-- C8 witness: under `wEnvSkip` the first worker invocation is skipped;
the record dispatched at position 2 keeps `agent_id = 2`. -/
theorem c8_agent_ids_positional_witness :
    (wRecord2 ∈ (lead_agent wEnvSkip "q" []).1.individual_research) ∧
    ∃ j, ∃ hj : j < (lead_agent wEnvSkip "q" []).1.subtopics.length,
      wRecord2.agent_id = j + 1 ∧
      (lead_agent wEnvSkip "q" []).1.subtopics.get ⟨j, hj⟩ =
        wRecord2.topic :=
  ⟨by decide, c8_agent_ids_positional wEnvSkip "q" [] wRecord2 (by decide)⟩

end ResearchSystem
